import Mathlib

/-!
Verification of the layered settings composition and of the health-check
endpoint of the safe-job backend.

The embedding follows the Python sources:
- backend/config/settings/base.py   (base profile)
- backend/config/settings/test.py   (test profile overrides)
- backend/apps/core/views.py        (health check and version resolution)

String helpers reproduce the Python methods str.split, str.strip and
str.lower on the character lists underlying Lean strings, so that every
definition evaluates inside the kernel.
-/

namespace SafeJob

/-- Python str.split(sep) on character lists: splitting the empty string
yields one empty field, and n separators yield n+1 fields. -/
def splitChars (sep : Char) : List Char → List (List Char)
  | [] => [[]]
  | c :: cs =>
    match splitChars sep cs with
    | h :: t => if c = sep then [] :: h :: t else (c :: h) :: t
    | [] => [[c]]

/-- Python str.strip(): drop whitespace from both ends. -/
def stripChars (s : List Char) : List Char :=
  ((s.dropWhile Char.isWhitespace).reverse.dropWhile Char.isWhitespace).reverse

/-- Python str.lower() (ASCII range, which covers every value the
settings modules compare). -/
def pyLower (s : String) : String := String.mk (s.data.map Char.toLower)

/-- Python str.strip() lifted to strings. -/
def pyStrip (s : String) : String := String.mk (stripChars s.data)

/-- Python v.split(",") lifted to strings. -/
def pySplitComma (s : String) : List String := (splitChars ',' s.data).map String.mk

/-- A process-environment snapshot: variable name to value, absent names
giving none (os.environ / the decouple search path). -/
def Env : Type := String → Option String

/-- The error taxonomy of the configuration loader: a required variable
that is absent, or a present value the cast rejects. -/
inductive ConfigError where
  | missing (name : String)
  | castFailure (name : String)
deriving DecidableEq

/-- Modelled from the spec: the ConfigLoader contract (the decouple
config function the settings modules call is third-party code, not under
the repository sources). Per the spec: look the name up in the process
environment; if present, apply the cast; if absent and a default exists,
return the default; if absent and no default exists, fail with
MissingConfiguration. For a present value the cast rejects, the spec
leaves the policy for keys with a default implementation-defined; this
model falls back to the default, and a key without a default fails with
a cast error. -/
def resolve {α : Type} (env : Env) (name : String) (default? : Option α)
    (cast : String → Option α) : Except ConfigError α :=
  match env name, default? with
  | some v, some d => Except.ok ((cast v).getD d)
  | some v, none =>
    match cast v with
    | some x => Except.ok x
    | none => Except.error (ConfigError.castFailure name)
  | none, some d => Except.ok d
  | none, none => Except.error (ConfigError.missing name)

/-- The identity cast used for plain string keys. -/
def strCast (v : String) : Option String := some v

/-- Modelled from the spec: the boolean cast of the configuration
library (cast=bool in base.py): common truthy and falsy spellings are
accepted case-insensitively, anything else is rejected. -/
def castBoolean (v : String) : Option Bool :=
  if pyLower v ∈ ["1", "yes", "true", "on", "y", "t"] then some true
  else if pyLower v ∈ ["0", "no", "false", "off", "n", "f"] then some false
  else none

/-- Digits of a decimal numeral; none when empty or a non-digit occurs. -/
def digitsToNat (ds : List Char) : Option Nat :=
  if ds = [] then none
  else ds.foldl (fun acc c =>
    acc.bind (fun a => if c.isDigit then some (a * 10 + (c.toNat - 48)) else none)) (some 0)

/-- Modelled from the spec: the integer cast (cast=int in base.py),
following Python int(): surrounding whitespace tolerated, optional sign,
then decimal digits, anything else rejected. -/
def castInt (v : String) : Option Int :=
  match stripChars v.data with
  | '-' :: ds => (digitsToNat ds).map (fun n => -(n : Int))
  | '+' :: ds => (digitsToNat ds).map (fun n => (n : Int))
  | ds => (digitsToNat ds).map (fun n => (n : Int))

/-- The comma-list cast of ALLOWED_HOSTS and CORS_ALLOWED_ORIGINS in
base.py: lambda v: [s.strip() for s in v.split(",")]. -/
def commaListCast (v : String) : List String := (pySplitComma v).map pyStrip

/-- The comma-list cast of CSRF_TRUSTED_ORIGINS in base.py:
lambda v: [s.strip() for s in v.split(",")] if v else []. -/
def csrfTrustedOriginsCast (v : String) : List String :=
  if v = "" then [] else commaListCast v

/-- The six security-related settings the test profile assigns as one
block (SecurityPolicy in the spec), with the field names of the
settings modules. -/
structure SecurityPolicy where
  SECURE_HSTS_SECONDS : Int
  SECURE_HSTS_INCLUDE_SUBDOMAINS : Bool
  SECURE_HSTS_PRELOAD : Bool
  SECURE_SSL_REDIRECT : Bool
  SESSION_COOKIE_SECURE : Bool
  CSRF_COOKIE_SECURE : Bool
deriving DecidableEq

/-- The production-level block of test.py (the branch taken when
deployment checks run): HSTS one year, every flag on. -/
def strictPolicy : SecurityPolicy :=
  { SECURE_HSTS_SECONDS := 31536000
    SECURE_HSTS_INCLUDE_SUBDOMAINS := true
    SECURE_HSTS_PRELOAD := true
    SECURE_SSL_REDIRECT := true
    SESSION_COOKIE_SECURE := true
    CSRF_COOKIE_SECURE := true }

/-- The relaxed block of test.py (the branch taken during ordinary test
runs): HSTS zero, every flag off. -/
def relaxedPolicy : SecurityPolicy :=
  { SECURE_HSTS_SECONDS := 0
    SECURE_HSTS_INCLUDE_SUBDOMAINS := false
    SECURE_HSTS_PRELOAD := false
    SECURE_SSL_REDIRECT := false
    SESSION_COOKIE_SECURE := false
    CSRF_COOKIE_SECURE := false }

/-- test.py: RUNNING_DEPLOYMENT_CHECKS =
os.environ.get("DJANGO_DEPLOYMENT_CHECKS", "False").lower() == "true". -/
def RUNNING_DEPLOYMENT_CHECKS (env : Env) : Bool :=
  pyLower ((env "DJANGO_DEPLOYMENT_CHECKS").getD "False") == "true"

/-- test.py: the if/else on RUNNING_DEPLOYMENT_CHECKS assigning the six
security settings. -/
def testSecurityPolicy (env : Env) : SecurityPolicy :=
  if RUNNING_DEPLOYMENT_CHECKS env then strictPolicy else relaxedPolicy

/-- The default database connection of the settings modules (base.py
and test.py both build one). connMaxAge is none where the profile does
not set CONN_MAX_AGE. -/
structure DatabaseConfig where
  engine : String
  name : String
  user : String
  password : String
  host : String
  port : String
  connMaxAge : Option Nat
  sslmode : String
deriving DecidableEq

/-- The default cache of the settings modules: backend identifier and,
for the redis backend, its LOCATION URL. -/
structure CacheConfig where
  backend : String
  location : Option String
deriving DecidableEq

/-- The settings base.py resolves from the environment (the fields the
claims are about; fixed framework wiring such as INSTALLED_APPS is
omitted as it reads nothing from the environment). -/
structure BaseSettings where
  SECRET_KEY : String
  DEBUG : Bool
  ALLOWED_HOSTS : List String
  database : DatabaseConfig
  cache : CacheConfig
  CORS_ALLOWED_ORIGINS : List String
  security : SecurityPolicy
  CSRF_TRUSTED_ORIGINS : List String
deriving DecidableEq

/-- base.py, in source order: each config(...) call of the base profile.
POSTGRES_PASSWORD and REDIS_PASSWORD carry no default, so their absence
aborts the composition. -/
def baseSettings (env : Env) : Except ConfigError BaseSettings := do
  let secretKey ← resolve env "SECRET_KEY" (some "dev-key-change-me") strCast
  let debug ← resolve env "DEBUG" (some false) castBoolean
  let allowedHosts ← resolve env "ALLOWED_HOSTS" (some (commaListCast "localhost"))
    (fun v => some (commaListCast v))
  let pgDb ← resolve env "POSTGRES_DB" (some "safejob") strCast
  let pgUser ← resolve env "POSTGRES_USER" (some "safejob") strCast
  let pgPassword ← resolve env "POSTGRES_PASSWORD" none strCast
  let dbHost ← resolve env "DB_HOST" (some "db") strCast
  let dbPort ← resolve env "DB_PORT" (some "5432") strCast
  let redisPassword ← resolve env "REDIS_PASSWORD" none strCast
  let corsOrigins ← resolve env "CORS_ALLOWED_ORIGINS"
    (some (commaListCast "http://localhost:3000")) (fun v => some (commaListCast v))
  let sslRedirect ← resolve env "SECURE_SSL_REDIRECT" (some false) castBoolean
  let hstsSeconds ← resolve env "SECURE_HSTS_SECONDS" (some 0) castInt
  let hstsSub ← resolve env "SECURE_HSTS_INCLUDE_SUBDOMAINS" (some false) castBoolean
  let hstsPreload ← resolve env "SECURE_HSTS_PRELOAD" (some false) castBoolean
  let sessionSecure ← resolve env "SESSION_COOKIE_SECURE" (some false) castBoolean
  let csrfSecure ← resolve env "CSRF_COOKIE_SECURE" (some false) castBoolean
  let csrfTrusted ← resolve env "CSRF_TRUSTED_ORIGINS" (some (csrfTrustedOriginsCast ""))
    (fun v => some (csrfTrustedOriginsCast v))
  Except.ok
    { SECRET_KEY := secretKey
      DEBUG := debug
      ALLOWED_HOSTS := allowedHosts
      database :=
        { engine := "django.contrib.gis.db.backends.postgis"
          name := pgDb
          user := pgUser
          password := pgPassword
          host := dbHost
          port := dbPort
          connMaxAge := some 60
          sslmode := "prefer" }
      cache :=
        { backend := "django_redis.cache.RedisCache"
          location := some ("redis://:" ++ redisPassword ++ "@redis:6379/1") }
      CORS_ALLOWED_ORIGINS := corsOrigins
      security :=
        { SECURE_HSTS_SECONDS := hstsSeconds
          SECURE_HSTS_INCLUDE_SUBDOMAINS := hstsSub
          SECURE_HSTS_PRELOAD := hstsPreload
          SECURE_SSL_REDIRECT := sslRedirect
          SESSION_COOKIE_SECURE := sessionSecure
          CSRF_COOKIE_SECURE := csrfSecure }
      CSRF_TRUSTED_ORIGINS := csrfTrusted }

/-- The settings visible after test.py has executed: the base fields it
does not touch, plus its overrides and additions. -/
structure TestSettings where
  SECRET_KEY : String
  DEBUG : Bool
  TESTING : Bool
  ALLOWED_HOSTS : List String
  database : DatabaseConfig
  cache : CacheConfig
  CORS_ALLOWED_ORIGINS : List String
  CORS_ALLOW_ALL_ORIGINS : Bool
  security : SecurityPolicy
  CSRF_TRUSTED_ORIGINS : List String
  AUTH_PASSWORD_VALIDATORS : List String
  PASSWORD_HASHERS : List String
deriving DecidableEq

/-- test.py: "from .base import *" executes the whole base profile
first, then the module's own statements override DEBUG, DATABASES,
CACHES, the security block, SECRET_KEY and the rest, in source order. -/
def testSettings (env : Env) : Except ConfigError TestSettings := do
  let base ← baseSettings env
  let pgDb ← resolve env "POSTGRES_DB" (some "safejob_test") strCast
  let pgUser ← resolve env "POSTGRES_USER" (some "safejob_test") strCast
  let pgPassword ← resolve env "POSTGRES_PASSWORD" (some "test_password") strCast
  let dbHost ← resolve env "DB_HOST" (some "localhost") strCast
  let dbPort ← resolve env "DB_PORT" (some "5432") strCast
  Except.ok
    { SECRET_KEY :=
        "test-secret-key-for-ci-with-more-entropy-and-longer-length-to-pass-deployment-checks"
      DEBUG := false
      TESTING := true
      ALLOWED_HOSTS := base.ALLOWED_HOSTS
      database :=
        { engine := "django.contrib.gis.db.backends.postgis"
          name := pgDb
          user := pgUser
          password := pgPassword
          host := dbHost
          port := dbPort
          connMaxAge := none
          sslmode := "disable" }
      cache :=
        { backend := "django.core.cache.backends.locmem.LocMemCache"
          location := none }
      CORS_ALLOWED_ORIGINS := base.CORS_ALLOWED_ORIGINS
      CORS_ALLOW_ALL_ORIGINS := true
      security := testSecurityPolicy env
      CSRF_TRUSTED_ORIGINS := base.CSRF_TRUSTED_ORIGINS
      AUTH_PASSWORD_VALIDATORS := []
      PASSWORD_HASHERS := ["django.contrib.auth.hashers.MD5PasswordHasher"] }

/-- Installed-package metadata: distribution name to version string,
none when the distribution is not installed
(importlib.metadata.version raising PackageNotFoundError). -/
def PackageMetadata : Type := String → Option String

/-- views.py get_version(): version of the safe-job-backend
distribution, falling back to the literal "0.1.0" when the metadata
lookup fails. -/
def get_version (meta : PackageMetadata) : String :=
  match meta "safe-job-backend" with
  | some v => v
  | none => "0.1.0"

/-- HTTP request methods relevant to the health endpoint. -/
inductive HttpMethod where
  | GET
  | POST
  | PUT
  | DELETE
  | PATCH
  | HEAD
  | OPTIONS
deriving DecidableEq

/-- An HTTP response: status, content type, and the JSON body as an
ordered list of key/value pairs (every value the view emits is a
string). -/
structure HttpResponse where
  status : Nat
  contentType : String
  body : List (String × String)
deriving DecidableEq

/-- views.py health_check() under the require_http_methods(["GET"])
decorator. The package metadata and the current ISO-8601 clock reading
are the two external inputs of the handler. A non-GET method is
answered by the decorator with 405 and the framework's default HTML
content type before the body of the view runs. -/
def health_check (meta : PackageMetadata) (nowIso : String)
    (method : HttpMethod) : HttpResponse :=
  if method = HttpMethod.GET then
    { status := 200
      contentType := "application/json"
      body :=
        [("status", "healthy")
        , ("service", "safe-job-backend")
        , ("version", get_version meta)
        , ("timestamp", nowIso)] }
  else
    { status := 405, contentType := "text/html; charset=utf-8", body := [] }

/-- The empty environment snapshot: every variable absent. -/
def emptyEnv : Env := fun _ => none

/-- A snapshot defining only POSTGRES_PASSWORD. -/
def pgOnlyEnv : Env := fun n => if n = "POSTGRES_PASSWORD" then some "pw" else none

/-- A snapshot defining every variable as the string "pw". -/
def fullEnv : Env := fun _ => some "pw"

/-- A snapshot setting DJANGO_DEPLOYMENT_CHECKS to "1". -/
def deployOneEnv : Env := fun n => if n = "DJANGO_DEPLOYMENT_CHECKS" then some "1" else none

/-- A snapshot setting DJANGO_DEPLOYMENT_CHECKS to "True". -/
def deployTrueEnv : Env := fun n => if n = "DJANGO_DEPLOYMENT_CHECKS" then some "True" else none

/-- The value testSettings returns on fullEnv, written out. -/
def fullEnvTestSettings : TestSettings :=
  { SECRET_KEY :=
      "test-secret-key-for-ci-with-more-entropy-and-longer-length-to-pass-deployment-checks"
    DEBUG := false
    TESTING := true
    ALLOWED_HOSTS := ["pw"]
    database :=
      { engine := "django.contrib.gis.db.backends.postgis"
        name := "pw"
        user := "pw"
        password := "pw"
        host := "pw"
        port := "pw"
        connMaxAge := none
        sslmode := "disable" }
    cache := { backend := "django.core.cache.backends.locmem.LocMemCache", location := none }
    CORS_ALLOWED_ORIGINS := ["pw"]
    CORS_ALLOW_ALL_ORIGINS := true
    security := relaxedPolicy
    CSRF_TRUSTED_ORIGINS := ["pw"]
    AUTH_PASSWORD_VALIDATORS := []
    PASSWORD_HASHERS := ["django.contrib.auth.hashers.MD5PasswordHasher"] }

/-! Helper lemmas shared by the claim theorems. -/

/-- Binding a success passes the value on. -/
theorem exceptBind_ok {ε α β : Type} (a : α) (f : α → Except ε β) :
    (Except.ok a >>= f) = f a := rfl

/-- Binding a failure short-circuits. -/
theorem exceptBind_error {ε α β : Type} (e : ε) (f : α → Except ε β) :
    ((Except.error e : Except ε α) >>= f) = Except.error e := rfl

/-- A key with a default always resolves. -/
theorem resolve_some_default {α : Type} (env : Env) (name : String) (d : α)
    (cast : String → Option α) :
    resolve env name (some d) cast =
      Except.ok ((env name).elim d (fun v => (cast v).getD d)) := by
  unfold resolve
  cases env name <;> rfl

/-- A key with no default fails on an absent variable. -/
theorem resolve_none_missing {α : Type} (env : Env) (name : String)
    (cast : String → Option α) (h : env name = none) :
    resolve env name none cast = Except.error (ConfigError.missing name) := by
  unfold resolve
  rw [h]

/-- A required plain-string key resolves to the present value. -/
theorem resolve_present_strCast (env : Env) (name : String) (v : String)
    (h : env name = some v) :
    resolve env name none strCast = Except.ok v := by
  unfold resolve
  rw [h]
  rfl

/-- The base profile aborts at POSTGRES_PASSWORD when it is unset. -/
theorem baseSettings_missing_pg (env : Env) (h : env "POSTGRES_PASSWORD" = none) :
    baseSettings env = Except.error (ConfigError.missing "POSTGRES_PASSWORD") := by
  simp only [baseSettings, resolve_some_default, resolve_none_missing, h,
    exceptBind_ok, exceptBind_error]

/-- The base profile aborts at REDIS_PASSWORD when it is unset and
POSTGRES_PASSWORD is present. -/
theorem baseSettings_missing_redis (env : Env) (p : String)
    (hp : env "POSTGRES_PASSWORD" = some p) (h : env "REDIS_PASSWORD" = none) :
    baseSettings env = Except.error (ConfigError.missing "REDIS_PASSWORD") := by
  simp only [baseSettings, resolve_some_default, resolve_present_strCast env _ _ hp,
    resolve_none_missing, h, exceptBind_ok, exceptBind_error]

/-- A failing base import fails the test profile with the same error. -/
theorem testSettings_base_error (env : Env) (e : ConfigError)
    (h : baseSettings env = Except.error e) :
    testSettings env = Except.error e := by
  simp only [testSettings, h, exceptBind_error]

/-- Shape of a successful test composition: the secret key is the fixed
literal, the security block is the resolver's output, debug is off. -/
theorem testSettings_ok_shape (env : Env) (s : TestSettings)
    (h : testSettings env = Except.ok s) :
    s.SECRET_KEY =
      "test-secret-key-for-ci-with-more-entropy-and-longer-length-to-pass-deployment-checks" ∧
    s.security = testSecurityPolicy env ∧ s.DEBUG = false := by
  cases hb : baseSettings env with
  | error e =>
    rw [testSettings_base_error env e hb] at h
    exact Except.noConfusion h
  | ok b =>
    simp only [testSettings, hb, exceptBind_ok, resolve_some_default] at h
    injection h with h2
    rw [← h2]
    exact ⟨rfl, rfl, rfl⟩

/-! The claims. -/

/-- C1, counterexample: the comma-list cast that ALLOWED_HOSTS and
CORS_ALLOWED_ORIGINS use maps the empty string to a one-element list
containing the empty string, not to the empty list, because the empty
string splits into one empty field. -/
theorem commaListCast_empty_counterexample :
    commaListCast "" = [""] ∧ commaListCast "" ≠ [] := by decide

/-- C1, amended: only the CSRF_TRUSTED_ORIGINS cast maps the empty
string to the empty list; the ALLOWED_HOSTS and CORS_ALLOWED_ORIGINS
cast maps it to a list holding one empty string; every comma-list cast
maps "a, b,c" to the trimmed, order-preserving list a, b, c. -/
theorem comma_list_casts_amended :
    csrfTrustedOriginsCast "" = [] ∧
    commaListCast "" = [""] ∧
    commaListCast "a, b,c" = ["a", "b", "c"] ∧
    csrfTrustedOriginsCast "a, b,c" = ["a", "b", "c"] := by decide

/-- C2: the six security settings of the test profile form exactly one
of the two canonical records: a true deployment-checks flag yields the
strict record, a false flag the relaxed record, no other combination is
ever produced, and a successfully composed test settings object carries
exactly the resolver's output. -/
theorem testSecurityPolicy_two_states (env : Env) :
    (RUNNING_DEPLOYMENT_CHECKS env = true → testSecurityPolicy env = strictPolicy) ∧
    (RUNNING_DEPLOYMENT_CHECKS env = false → testSecurityPolicy env = relaxedPolicy) ∧
    (testSecurityPolicy env = strictPolicy ∨ testSecurityPolicy env = relaxedPolicy) ∧
    (∀ s, testSettings env = Except.ok s →
      s.security = strictPolicy ∨ s.security = relaxedPolicy) := by
  refine ⟨?_, ?_, ?_, ?_⟩
  · intro hr
    simp [testSecurityPolicy, hr]
  · intro hr
    simp [testSecurityPolicy, hr]
  · unfold testSecurityPolicy
    cases RUNNING_DEPLOYMENT_CHECKS env <;> simp
  · intro s hs
    rw [(testSettings_ok_shape env s hs).2.1]
    unfold testSecurityPolicy
    cases RUNNING_DEPLOYMENT_CHECKS env <;> simp

/-- C2, witness at a snapshot turning the deployment-checks flag on. -/
theorem testSecurityPolicy_two_states_witness :
    RUNNING_DEPLOYMENT_CHECKS deployTrueEnv = true ∧
    testSecurityPolicy deployTrueEnv = strictPolicy :=
  ⟨by decide, (testSecurityPolicy_two_states deployTrueEnv).1 (by decide)⟩

/-- C3: a GET request to the health endpoint is answered with status
200, content type application/json, and a body holding exactly the keys
status, service, version and timestamp, with status the literal
healthy and service the fixed service name. -/
theorem health_check_get (meta : PackageMetadata) (nowIso : String) :
    (health_check meta nowIso HttpMethod.GET).status = 200 ∧
    (health_check meta nowIso HttpMethod.GET).contentType = "application/json" ∧
    ((health_check meta nowIso HttpMethod.GET).body).map Prod.fst =
      ["status", "service", "version", "timestamp"] ∧
    ((health_check meta nowIso HttpMethod.GET).body).lookup "status" = some "healthy" ∧
    ((health_check meta nowIso HttpMethod.GET).body).lookup "service" =
      some "safe-job-backend" := by
  refine ⟨rfl, rfl, rfl, ?_, ?_⟩ <;> rfl

/-- C4: resolution of an absent variable returns the default when one
was supplied, for any default and cast, fails with a missing error when
none was, and consequently no base settings object at all is produced
when POSTGRES_PASSWORD or REDIS_PASSWORD is unset. -/
theorem resolve_absent_behavior {α : Type} (env : Env) (name : String) (d : α)
    (cast : String → Option α) (h : env name = none) :
    resolve env name (some d) cast = Except.ok d ∧
    resolve env name none cast = Except.error (ConfigError.missing name) ∧
    (∀ env2 : Env, env2 "POSTGRES_PASSWORD" = none →
      ∀ s, baseSettings env2 ≠ Except.ok s) ∧
    (∀ env2 : Env, env2 "REDIS_PASSWORD" = none →
      ∀ s, baseSettings env2 ≠ Except.ok s) := by
  refine ⟨?_, resolve_none_missing env name cast h, ?_, ?_⟩
  · rw [resolve_some_default, h]
    rfl
  · intro env2 h2 s hs
    rw [baseSettings_missing_pg env2 h2] at hs
    exact Except.noConfusion hs
  · intro env2 h2 s hs
    cases hp : env2 "POSTGRES_PASSWORD" with
    | none =>
      rw [baseSettings_missing_pg env2 hp] at hs
      exact Except.noConfusion hs
    | some p =>
      rw [baseSettings_missing_redis env2 p hp h2] at hs
      exact Except.noConfusion hs

/-- C4, witness at the empty snapshot with a defaulted key. -/
theorem resolve_absent_behavior_witness :
    emptyEnv "SOME_KEY" = none ∧
    resolve emptyEnv "SOME_KEY" (some (0 : Nat)) (fun _ => none) = Except.ok 0 :=
  ⟨rfl, (resolve_absent_behavior emptyEnv "SOME_KEY" 0 (fun _ => none) rfl).1⟩

/-- C5: version resolution is total over the metadata oracle: a found
distribution reports its own version, a missing one reports the
fallback literal, and under the fact that an installed distribution
always carries a nonempty version string the result is never empty. -/
theorem get_version_total (meta : PackageMetadata)
    (hne : ∀ v, meta "safe-job-backend" = some v → v ≠ "") :
    (∀ v, meta "safe-job-backend" = some v → get_version meta = v) ∧
    (meta "safe-job-backend" = none → get_version meta = "0.1.0") ∧
    get_version meta ≠ "" := by
  refine ⟨?_, ?_, ?_⟩
  · intro v hv
    unfold get_version
    rw [hv]
  · intro hn
    unfold get_version
    rw [hn]
  · unfold get_version
    cases hm : meta "safe-job-backend" with
    | none => decide
    | some v => exact hne v hm

/-- C5, witness at the empty metadata oracle. -/
theorem get_version_total_witness :
    (∀ v, (fun _ => (none : Option String)) "safe-job-backend" = some v → v ≠ "") ∧
    get_version (fun _ => none) = "0.1.0" := by
  refine ⟨(fun _ h => nomatch h), ?_⟩
  exact (get_version_total (fun _ => none) (fun _ h => nomatch h)).2.1 rfl

/-- C6: every non-GET request to the health endpoint is answered with
status 405. -/
theorem health_check_non_get (meta : PackageMetadata) (nowIso : String)
    (method : HttpMethod) (h : method ≠ HttpMethod.GET) :
    (health_check meta nowIso method).status = 405 := by
  unfold health_check
  rw [if_neg h]

/-- C6, witness at a POST request. -/
theorem health_check_non_get_witness :
    HttpMethod.POST ≠ HttpMethod.GET ∧
    (health_check (fun _ => none) "2026-01-01T00:00:00+00:00" HttpMethod.POST).status = 405 :=
  ⟨by decide, health_check_non_get _ _ _ (by decide)⟩

/-- C7: settings composition is deterministic: two runs over
field-for-field identical environment snapshots produce identical base
settings and identical test settings. -/
theorem settings_composition_deterministic (env1 env2 : Env)
    (h : ∀ n, env1 n = env2 n) :
    baseSettings env1 = baseSettings env2 ∧ testSettings env1 = testSettings env2 := by
  have he : env1 = env2 := funext h
  subst he
  exact ⟨rfl, rfl⟩

/-- C7, witness at the all-defined snapshot. -/
theorem settings_composition_deterministic_witness :
    (∀ n, fullEnv n = fullEnv n) ∧ baseSettings fullEnv = baseSettings fullEnv :=
  ⟨fun _ => rfl, (settings_composition_deterministic fullEnv fullEnv (fun _ => rfl)).1⟩

/-- C8, counterexample: the spelling 1, a common truthy spelling the
boolean cast of the configuration loader accepts, is mapped to false by
the deployment-checks flag of the test profile, which therefore keeps
the relaxed security block. -/
theorem deployment_flag_spelling_counterexample :
    castBoolean "1" = some true ∧
    RUNNING_DEPLOYMENT_CHECKS deployOneEnv = false ∧
    testSecurityPolicy deployOneEnv = relaxedPolicy := by decide

/-- C8, amended: the boolean cast of decorated keys such as DEBUG
accepts the common truthy and falsy spellings case-insensitively,
rejects other spellings, and a rejected spelling on a defaulted key
falls back to the default; the deployment-checks flag instead treats
exactly the spelling true, case-insensitively, as truthy and maps every
other value, common truthy spellings included, to false. -/
theorem bool_cast_spellings (env : Env) (v : String)
    (hv : env "DJANGO_DEPLOYMENT_CHECKS" = some v) :
    (castBoolean "true" = some true ∧ castBoolean "TRUE" = some true ∧
      castBoolean "Yes" = some true ∧ castBoolean "1" = some true ∧
      castBoolean "on" = some true ∧ castBoolean "false" = some false ∧
      castBoolean "No" = some false ∧ castBoolean "0" = some false ∧
      castBoolean "OFF" = some false ∧ castBoolean "garbage" = none) ∧
    (∀ env2 : Env, ∀ w, env2 "DEBUG" = some w → castBoolean w = none →
      resolve env2 "DEBUG" (some false) castBoolean = Except.ok false) ∧
    (RUNNING_DEPLOYMENT_CHECKS env = true ↔ pyLower v = "true") := by
  refine ⟨by decide, ?_, ?_⟩
  · intro env2 w hw hc
    rw [resolve_some_default, hw]
    simp [hc]
  · unfold RUNNING_DEPLOYMENT_CHECKS
    rw [hv]
    simp [Option.getD]

/-- C8, witness at a snapshot spelling the flag True. -/
theorem bool_cast_spellings_witness :
    deployTrueEnv "DJANGO_DEPLOYMENT_CHECKS" = some "True" ∧
    (RUNNING_DEPLOYMENT_CHECKS deployTrueEnv = true ↔ pyLower "True" = "true") :=
  ⟨by decide, (bool_cast_spellings deployTrueEnv "True" (by decide)).2.2⟩

/-- C9: the test profile still requires REDIS_PASSWORD: with it unset
the composition fails with a missing-configuration error, and when
POSTGRES_PASSWORD is present the error names REDIS_PASSWORD itself,
because the base cache LOCATION reads it before the test override
replaces CACHES. -/
theorem testSettings_requires_redis (env : Env) (h : env "REDIS_PASSWORD" = none) :
    (∃ name, testSettings env = Except.error (ConfigError.missing name)) ∧
    (∀ p, env "POSTGRES_PASSWORD" = some p →
      testSettings env = Except.error (ConfigError.missing "REDIS_PASSWORD")) := by
  constructor
  · cases hp : env "POSTGRES_PASSWORD" with
    | none =>
      exact ⟨"POSTGRES_PASSWORD",
        testSettings_base_error env _ (baseSettings_missing_pg env hp)⟩
    | some p =>
      exact ⟨"REDIS_PASSWORD",
        testSettings_base_error env _ (baseSettings_missing_redis env p hp h)⟩
  · intro p hp
    exact testSettings_base_error env _ (baseSettings_missing_redis env p hp h)

/-- C9, witness at the snapshot defining only POSTGRES_PASSWORD. -/
theorem testSettings_requires_redis_witness :
    pgOnlyEnv "REDIS_PASSWORD" = none ∧
    testSettings pgOnlyEnv = Except.error (ConfigError.missing "REDIS_PASSWORD") :=
  ⟨by decide, (testSettings_requires_redis pgOnlyEnv (by decide)).2 "pw" (by decide)⟩

/-- C10: the secret key of a composed test settings object is the fixed
test literal, so any two successful compositions, whatever their
environment snapshots hold in SECRET_KEY or anywhere else, agree on
it. -/
theorem testSettings_secret_key_fixed (env1 env2 : Env) (s1 s2 : TestSettings)
    (h1 : testSettings env1 = Except.ok s1) (h2 : testSettings env2 = Except.ok s2) :
    s1.SECRET_KEY = s2.SECRET_KEY ∧
    s1.SECRET_KEY =
      "test-secret-key-for-ci-with-more-entropy-and-longer-length-to-pass-deployment-checks" := by
  have e1 := (testSettings_ok_shape env1 s1 h1).1
  have e2 := (testSettings_ok_shape env2 s2 h2).1
  exact ⟨e1.trans e2.symm, e1⟩

/-- C10, witness at the all-defined snapshot. -/
theorem testSettings_secret_key_fixed_witness :
    testSettings fullEnv = Except.ok fullEnvTestSettings ∧
    fullEnvTestSettings.SECRET_KEY =
      "test-secret-key-for-ci-with-more-entropy-and-longer-length-to-pass-deployment-checks" :=
  ⟨rfl,
    (testSettings_secret_key_fixed fullEnv fullEnv fullEnvTestSettings fullEnvTestSettings
      rfl rfl).2⟩

end SafeJob
